import Mathlib

/-!
Verification of the health-check service in `src/app/app.py`.

The source is a small Flask application with three handlers (`home`,
`health`, `info`) and a connection helper (`get_db_connection`).  We embed
it shallowly: the environment is a partial map from variable names to
strings, the database is an oracle describing the outcome of the one
connection attempt and the one `SELECT version();` query performed per
invocation, the current clock reading (`datetime.now().isoformat()`) is an
opaque string parameter, and each handler is a pure function returning a
JSON body (an ordered association list) together with an HTTP status code.
The `health` embedding additionally records whether `conn.close()` was
executed and whether the verification query was attempted, so that the
resource-handling claims can be stated.
-/

namespace App

/-- A JSON value as produced by the handlers: the bodies only ever contain
strings and lists of strings. -/
inductive JsonVal where
  | str (s : String)
  | arr (l : List String)
deriving DecidableEq, Repr

/-- An HTTP response: the JSON body as an ordered association list of
fields, plus the status code.  In Flask, `jsonify(...)` without an explicit
code yields 200; `jsonify(...), n` yields code `n`. -/
structure Response where
  body : List (String × JsonVal)
  code : Nat
deriving DecidableEq, Repr

/-- Look up a field of the JSON body (first occurrence of the key). -/
def Response.field (r : Response) (k : String) : Option JsonVal :=
  (r.body.find? (fun p => p.1 == k)).map (fun p => p.2)

/-- The process environment: `os.environ.get` returns `none` for an unset
variable. -/
def Env : Type := String → Option String

/-- `DB_HOST = os.environ.get('DB_HOST', 'localhost')` (src/app/app.py:10). -/
def DB_HOST (env : Env) : String := (env "DB_HOST").getD "localhost"

/-- `DB_NAME = os.environ.get('DB_NAME', 'testdb')` (src/app/app.py:11). -/
def DB_NAME (env : Env) : String := (env "DB_NAME").getD "testdb"

/-- `DB_USER = os.environ.get('DB_USER', 'testuser')` (src/app/app.py:12). -/
def DB_USER (env : Env) : String := (env "DB_USER").getD "testuser"

/-- `DB_PASS = os.environ.get('DB_PASS', 'testpass')` (src/app/app.py:13). -/
def DB_PASS (env : Env) : String := (env "DB_PASS").getD "testpass"

/-- Outcome of the verification query once a connection is open:
`cur.execute('SELECT version();')` either raises with some message, or
succeeds, in which case `cur.fetchone()` returns an optional row whose
first column is the version string. -/
inductive QueryOutcome where
  | raises (msg : String)
  | returns (row : Option String)
deriving DecidableEq, Repr

/-- Outcome of the whole database interaction for one `/health`
invocation: `psycopg2.connect` raises (any reason), or a connection opens
and the query behaves as described by the `QueryOutcome`. -/
inductive DbOutcome where
  | connFail
  | connOk (q : QueryOutcome)
deriving DecidableEq, Repr

/-- `get_db_connection` (src/app/app.py:15-26): returns the connection, or
`None` when `psycopg2.connect` raises, whatever the exception. -/
def get_db_connection (db : DbOutcome) : Option QueryOutcome :=
  match db with
  | .connFail => none
  | .connOk q => some q

/-- The whitespace characters recognised by the Python method
`str.split()` with no argument: the CPython `Py_UNICODE_ISSPACE` set,
i.e. U+0009..U+000D, U+001C..U+001F, U+0020, U+0085, U+00A0, U+1680,
U+2000..U+200A, U+2028, U+2029, U+202F, U+205F and U+3000. -/
def pyIsSpace (c : Char) : Bool :=
  (9 ≤ c.toNat && c.toNat ≤ 13) || (28 ≤ c.toNat && c.toNat ≤ 31) ||
  c.toNat = 32 || c.toNat = 133 || c.toNat = 160 || c.toNat = 5760 ||
  (8192 ≤ c.toNat && c.toNat ≤ 8202) || c.toNat = 8232 || c.toNat = 8233 ||
  c.toNat = 8239 || c.toNat = 8287 || c.toNat = 12288

/-- Tokenise a character list into its maximal runs of characters not
satisfying `sp`, accumulating the current run in `acc` (reversed). -/
def pyWordsAux (sp : Char → Bool) : List Char → List Char → List (List Char)
  | [], acc => if acc.isEmpty then [] else [acc.reverse]
  | c :: cs, acc =>
    if sp c then
      if acc.isEmpty then pyWordsAux sp cs []
      else acc.reverse :: pyWordsAux sp cs []
    else pyWordsAux sp cs (c :: acc)

/-- Python `s.split()`: split on runs of whitespace, discarding empty
tokens. -/
def pySplit (s : String) : List String :=
  (pyWordsAux pyIsSpace s.toList []).map (fun w => String.mk w)

/-- A single quote character, for building CPython error messages. -/
def squote : String := String.singleton (Char.ofNat 39)

/-- The message of the `TypeError` CPython raises for `None[0]`, i.e. for
`cur.fetchone()[0]` when `fetchone` returned no row. -/
def pyNoneSubscriptMsg : String :=
  squote ++ "NoneType" ++ squote ++ " object is not subscriptable"

/-- `cur.execute('SELECT version();')` followed by
`db_version = cur.fetchone()[0]` (src/app/app.py:48-49): yields the
version string, or the message of the exception this sequence raises. -/
def fetchVersion (q : QueryOutcome) : Except String String :=
  match q with
  | .raises msg => .error msg
  | .returns none => .error pyNoneSubscriptMsg
  | .returns (some v) => .ok v

/-- One `/health` invocation: the HTTP response, whether `conn.close()`
was executed, and whether the verification query was attempted. -/
structure HealthRun where
  resp : Response
  connClosed : Bool
  queryRan : Bool
deriving DecidableEq, Repr

/-- The `/health` handler (src/app/app.py:38-71), given the database
oracle and the clock reading `t`.  If the connection opens, the try block
runs the query, extracts `fetchone()[0]`, closes cursor and connection,
and returns the healthy body with `db_version.split()[0:2]`; any exception
in the try block jumps to the except clause, which returns the degraded
body with `str(e)` and closes nothing.  If `get_db_connection` returned
`None`, the unhealthy body is returned and no query runs. -/
def health (db : DbOutcome) (t : String) : HealthRun :=
  match get_db_connection db with
  | some q =>
    match fetchVersion q with
    | .ok v =>
      { resp := { body := [("status", .str "healthy"),
                           ("database", .str "connected"),
                           ("db_version", .arr ((pySplit v).take 2)),
                           ("timestamp", .str t)],
                  code := 200 },
        connClosed := true, queryRan := true }
    | .error e =>
      { resp := { body := [("status", .str "degraded"),
                           ("database", .str "error"),
                           ("error", .str e),
                           ("timestamp", .str t)],
                  code := 500 },
        connClosed := false, queryRan := true }
  | none =>
    { resp := { body := [("status", .str "unhealthy"),
                         ("database", .str "disconnected"),
                         ("timestamp", .str t)],
                code := 503 },
      connClosed := false, queryRan := false }

/-- The `/` handler (src/app/app.py:28-36), given the clock reading. -/
def home (t : String) : Response :=
  { body := [("service", .str "Python test Application"),
             ("message", .str "Hello from Ibrahim!"),
             ("timestamp", .str t),
             ("status", .str "running")],
    code := 200 }

/-- The `/info` handler (src/app/app.py:73-86). -/
def info (env : Env) : Response :=
  { body := [("python_version", .str "3.12.3"),
             ("flask_version", .str "installed"),
             ("database_host", .str (DB_HOST env)),
             ("database_name", .str (DB_NAME env)),
             ("endpoints", .arr ["/ - Homepage",
                                 "/health - Health check",
                                 "/info - This page"])],
    code := 200 }

/-- The three routes registered on the app. -/
inductive Route where
  | root
  | healthR
  | infoR
deriving DecidableEq, Repr

/-- The routing of the app: dispatch a request on route `r` in environment
`env`, with database oracle `db` and clock reading `t`, to its handler. -/
def handle (r : Route) (env : Env) (db : DbOutcome) (t : String) : Response :=
  match r with
  | .root => home t
  | .healthR => (health db t).resp
  | .infoR => info env

/-- Erase the value of the `timestamp` field of a response, leaving every
other field and the status code intact.  Two runs are "identical apart
from the timestamp" when their scrubbed responses are equal. -/
def scrubTimestamp (r : Response) : Response :=
  { body := r.body.map (fun p => if p.1 = "timestamp" then (p.1, JsonVal.str "") else p),
    code := r.code }

/-- A sample environment with `DB_HOST` set to `db1` and everything else
unset. -/
def envEx : Env := fun k => if k = "DB_HOST" then some "db1" else none

end App

namespace App

/-- Claim C1: the claim states that after a successful open the connection
is released on every exit path of the `/health` handler, regardless of the
query outcome.  The code violates this: the except clause of the handler
(src/app/app.py:59-65) returns the degraded response without ever calling
`conn.close()`, so when the verification query raises — or when
`fetchone()` returns no row and the subscript raises — the connection is
leaked.  This theorem evaluates the embedding at both failing inputs and
shows `conn.close()` did not run. -/
theorem health_query_error_leaks_connection :
    (health (.connOk (.raises "syntax error")) "2026-01-01T00:00:00").connClosed = false ∧
    (health (.connOk (.returns none)) "2026-01-01T00:00:00").connClosed = false :=
  ⟨rfl, rfl⟩

/-- Claim C2 (counterexample): the claim asserts a non-empty version
detail whenever the connection opens and the query succeeds.  If the query
succeeds but returns an empty — or all-whitespace — version string, the
handler still answers 200 healthy/connected, yet `db_version` is the empty
list, since both `''.split()[0:2]` and `'   '.split()[0:2]` are `[]`, so
the detail is empty and the claim as stated is false. -/
theorem health_empty_version_detail_counterexample :
    ((health (.connOk (.returns (some ""))) "2026-01-01T00:00:01").resp.code = 200 ∧
     (health (.connOk (.returns (some ""))) "2026-01-01T00:00:01").resp.field "status"
       = some (.str "healthy") ∧
     (health (.connOk (.returns (some ""))) "2026-01-01T00:00:01").resp.field "database"
       = some (.str "connected") ∧
     (health (.connOk (.returns (some ""))) "2026-01-01T00:00:01").resp.field "db_version"
       = some (.arr [])) ∧
    ((health (.connOk (.returns (some "   "))) "2026-01-01T00:00:01").resp.code = 200 ∧
     (health (.connOk (.returns (some "   "))) "2026-01-01T00:00:01").resp.field "status"
       = some (.str "healthy") ∧
     (health (.connOk (.returns (some "   "))) "2026-01-01T00:00:01").resp.field "database"
       = some (.str "connected") ∧
     (health (.connOk (.returns (some "   "))) "2026-01-01T00:00:01").resp.field "db_version"
       = some (.arr [])) :=
  ⟨⟨rfl, rfl, rfl, by decide⟩, ⟨rfl, rfl, rfl, by decide⟩⟩

/-- Claim C2 (amended): for every invocation in which the connection opens
and the verification query succeeds with version string `v`, the response
is 200 with `status=healthy`, `database=connected`, and `db_version` equal
to the first two whitespace-delimited tokens of `v`; the detail is
non-empty whenever `v` contains at least one token. -/
theorem health_query_success_response (v t : String) :
    (health (.connOk (.returns (some v))) t).resp.code = 200 ∧
    (health (.connOk (.returns (some v))) t).resp.field "status" = some (.str "healthy") ∧
    (health (.connOk (.returns (some v))) t).resp.field "database" = some (.str "connected") ∧
    (health (.connOk (.returns (some v))) t).resp.field "db_version"
      = some (.arr ((pySplit v).take 2)) ∧
    (pySplit v ≠ [] → (pySplit v).take 2 ≠ []) := by
  refine ⟨rfl, rfl, rfl, rfl, fun h => ?_⟩
  cases hl : pySplit v with
  | nil => exact absurd hl h
  | cons a l => simp [List.take]

/-- Witness for C2 at the version string `PostgreSQL 15.3 on x86_64`,
which has a token, so the non-emptiness guard fires. -/
theorem health_query_success_response_witness :
    pySplit "PostgreSQL 15.3 on x86_64" ≠ [] ∧
    ((health (.connOk (.returns (some "PostgreSQL 15.3 on x86_64"))) "2026-01-02").resp.code = 200 ∧
     (health (.connOk (.returns (some "PostgreSQL 15.3 on x86_64"))) "2026-01-02").resp.field "status"
       = some (.str "healthy") ∧
     (health (.connOk (.returns (some "PostgreSQL 15.3 on x86_64"))) "2026-01-02").resp.field "database"
       = some (.str "connected") ∧
     (health (.connOk (.returns (some "PostgreSQL 15.3 on x86_64"))) "2026-01-02").resp.field "db_version"
       = some (.arr ((pySplit "PostgreSQL 15.3 on x86_64").take 2)) ∧
     (pySplit "PostgreSQL 15.3 on x86_64").take 2 ≠ []) :=
  ⟨by decide,
   (health_query_success_response "PostgreSQL 15.3 on x86_64" "2026-01-02").1,
   (health_query_success_response "PostgreSQL 15.3 on x86_64" "2026-01-02").2.1,
   (health_query_success_response "PostgreSQL 15.3 on x86_64" "2026-01-02").2.2.1,
   (health_query_success_response "PostgreSQL 15.3 on x86_64" "2026-01-02").2.2.2.1,
   (health_query_success_response "PostgreSQL 15.3 on x86_64" "2026-01-02").2.2.2.2 (by decide)⟩

/-- Claim C3 (counterexample): the claim asserts a non-empty error detail
whenever the query fails.  If the query raises an exception whose message
is the empty string (`str(e) == ''`), the handler answers 500 degraded with
`error` equal to the empty string, so the detail is empty and the claim as
stated is false. -/
theorem health_empty_error_message_counterexample :
    (health (.connOk (.raises "")) "2026-01-01T00:00:02").resp.code = 500 ∧
    (health (.connOk (.raises "")) "2026-01-01T00:00:02").resp.field "status"
      = some (.str "degraded") ∧
    (health (.connOk (.raises "")) "2026-01-01T00:00:02").resp.field "database"
      = some (.str "error") ∧
    (health (.connOk (.raises "")) "2026-01-01T00:00:02").resp.field "error"
      = some (.str "") :=
  ⟨rfl, rfl, rfl, rfl⟩

/-- Claim C3 (amended): for every invocation in which the connection opens
but the verification query raises an exception with message `msg`, the
response is 500 with `status=degraded`, `database=error`, and an `error`
detail equal to `msg`; the detail is non-empty whenever `msg` is. -/
theorem health_query_error_response (msg t : String) :
    (health (.connOk (.raises msg)) t).resp.code = 500 ∧
    (health (.connOk (.raises msg)) t).resp.field "status" = some (.str "degraded") ∧
    (health (.connOk (.raises msg)) t).resp.field "database" = some (.str "error") ∧
    (health (.connOk (.raises msg)) t).resp.field "error" = some (.str msg) ∧
    (msg ≠ "" →
      ∃ s, (health (.connOk (.raises msg)) t).resp.field "error" = some (.str s) ∧ s ≠ "") :=
  ⟨rfl, rfl, rfl, rfl, fun h => ⟨msg, rfl, h⟩⟩

/-- Witness for C3 at the non-empty error message `connection reset`,
which makes the non-emptiness guard fire. -/
theorem health_query_error_response_witness :
    "connection reset" ≠ "" ∧
    ((health (.connOk (.raises "connection reset")) "2026-01-03").resp.code = 500 ∧
     (health (.connOk (.raises "connection reset")) "2026-01-03").resp.field "status"
       = some (.str "degraded") ∧
     (health (.connOk (.raises "connection reset")) "2026-01-03").resp.field "database"
       = some (.str "error") ∧
     (health (.connOk (.raises "connection reset")) "2026-01-03").resp.field "error"
       = some (.str "connection reset") ∧
     ∃ s, (health (.connOk (.raises "connection reset")) "2026-01-03").resp.field "error"
       = some (.str s) ∧ s ≠ "") :=
  ⟨by decide,
   (health_query_error_response "connection reset" "2026-01-03").1,
   (health_query_error_response "connection reset" "2026-01-03").2.1,
   (health_query_error_response "connection reset" "2026-01-03").2.2.1,
   (health_query_error_response "connection reset" "2026-01-03").2.2.2.1,
   (health_query_error_response "connection reset" "2026-01-03").2.2.2.2 (by decide)⟩

/-- Claim C4: for every invocation in which connection establishment
fails, the response is 503 with `status=unhealthy`,
`database=disconnected`, no `db_version` field, no `error` field, and the
verification query is never attempted. -/
theorem health_conn_fail_response (t : String) :
    (health .connFail t).resp.code = 503 ∧
    (health .connFail t).resp.field "status" = some (.str "unhealthy") ∧
    (health .connFail t).resp.field "database" = some (.str "disconnected") ∧
    (health .connFail t).resp.field "db_version" = none ∧
    (health .connFail t).resp.field "error" = none ∧
    (health .connFail t).queryRan = false :=
  ⟨rfl, rfl, rfl, rfl, rfl, rfl⟩

/-- Claim C5: for every database outcome — connection failure, query
exception, missing row, or success — the `/health` handler returns a
structured response: its status code is one of 200, 500, 503 and the body
always carries `status`, `database` and the timestamp.  The embedding is a
total function, mirroring that every failure mode in the source is caught
and converted to a return value. -/
theorem health_never_raises (db : DbOutcome) (t : String) :
    ((health db t).resp.code = 200 ∨ (health db t).resp.code = 500 ∨
      (health db t).resp.code = 503) ∧
    (health db t).resp.field "status" ≠ none ∧
    (health db t).resp.field "database" ≠ none ∧
    (health db t).resp.field "timestamp" = some (.str t) := by
  cases db with
  | connFail =>
      exact ⟨Or.inr (Or.inr rfl), Option.some_ne_none _, Option.some_ne_none _, rfl⟩
  | connOk q =>
      cases q with
      | raises msg =>
          exact ⟨Or.inr (Or.inl rfl), Option.some_ne_none _, Option.some_ne_none _, rfl⟩
      | returns row =>
          cases row with
          | none =>
              exact ⟨Or.inr (Or.inl rfl), Option.some_ne_none _, Option.some_ne_none _, rfl⟩
          | some v =>
              exact ⟨Or.inl rfl, Option.some_ne_none _, Option.some_ne_none _, rfl⟩

/-- Claim C6: for every environment, `/info` returns 200 with
`database_host` and `database_name` equal to the configured `DB_HOST` and
`DB_NAME`, which default to `localhost` and `testdb` when the environment
variables are unset and equal the set value otherwise. -/
theorem info_echoes_config (env : Env) :
    (info env).code = 200 ∧
    (info env).field "database_host" = some (.str (DB_HOST env)) ∧
    (info env).field "database_name" = some (.str (DB_NAME env)) ∧
    (env "DB_HOST" = none → DB_HOST env = "localhost") ∧
    (∀ v, env "DB_HOST" = some v → DB_HOST env = v) ∧
    (env "DB_NAME" = none → DB_NAME env = "testdb") ∧
    (∀ v, env "DB_NAME" = some v → DB_NAME env = v) := by
  refine ⟨rfl, rfl, rfl, fun h => ?_, fun v h => ?_, fun h => ?_, fun v h => ?_⟩ <;>
    simp [DB_HOST, DB_NAME, h]

/-- Witness for C6 at an environment with `DB_HOST=db1` set and `DB_NAME`
unset. -/
theorem info_echoes_config_witness :
    envEx "DB_HOST" = some "db1" ∧ envEx "DB_NAME" = none ∧
    DB_HOST envEx = "db1" ∧ DB_NAME envEx = "testdb" :=
  ⟨by decide, by decide,
   (info_echoes_config envEx).2.2.2.2.1 "db1" (by decide),
   (info_echoes_config envEx).2.2.2.2.2.1 (by decide)⟩

/-- Claim C7: for every database outcome, the `/` handler returns 200 with
the fields `service`, `message`, `timestamp` (the clock reading passed in
verbatim) and `status`, and its result does not depend on the database:
dispatching the root route with any two database outcomes yields the same
response. -/
theorem home_independent_of_database (env : Env) (db db2 : DbOutcome) (t : String) :
    handle .root env db t = handle .root env db2 t ∧
    (handle .root env db t).code = 200 ∧
    (handle .root env db t).field "service" = some (.str "Python test Application") ∧
    (handle .root env db t).field "message" = some (.str "Hello from Ibrahim!") ∧
    (handle .root env db t).field "timestamp" = some (.str t) ∧
    (handle .root env db t).field "status" = some (.str "running") :=
  ⟨rfl, rfl, rfl, rfl, rfl, rfl⟩

/-- Claim C8: the `/health` handler carries no state between invocations —
in the embedding it is a pure function of the current database outcome and
clock reading only, mirroring that the source reads no mutable module
state — so two invocations observing the same database outcome produce
identical responses apart from the timestamp, and identical
connection-close and query-attempt behaviour. -/
theorem health_stateless (db : DbOutcome) (t1 t2 : String) :
    scrubTimestamp (health db t1).resp = scrubTimestamp (health db t2).resp ∧
    (health db t1).resp.code = (health db t2).resp.code ∧
    (health db t1).connClosed = (health db t2).connClosed ∧
    (health db t1).queryRan = (health db t2).queryRan := by
  cases db with
  | connFail => exact ⟨rfl, rfl, rfl, rfl⟩
  | connOk q =>
      cases q with
      | raises msg => exact ⟨rfl, rfl, rfl, rfl⟩
      | returns row =>
          cases row with
          | none => exact ⟨rfl, rfl, rfl, rfl⟩
          | some v => exact ⟨rfl, rfl, rfl, rfl⟩

/-- Claim C9: when the connection opens and the query executes but
`fetchone()` yields no row, subscripting `None` raises a `TypeError`,
which the except clause converts into the degraded response: 500 with
`status=degraded`, `database=error`, and the `TypeError` message as the
error detail. -/
theorem health_no_row_is_degraded (t : String) :
    (health (.connOk (.returns none)) t).resp.code = 500 ∧
    (health (.connOk (.returns none)) t).resp.field "status" = some (.str "degraded") ∧
    (health (.connOk (.returns none)) t).resp.field "database" = some (.str "error") ∧
    (health (.connOk (.returns none)) t).resp.field "error"
      = some (.str pyNoneSubscriptMsg) :=
  ⟨rfl, rfl, rfl, rfl⟩

/-- Claim C10: for every environment, `/info` reports the fixed literals
`3.12.3` for `python_version` and `installed` for `flask_version`; the
fields are constants, equal across any two environments and independent of
any actual interpreter or library version. -/
theorem info_version_fields_constant (env env2 : Env) :
    (info env).field "python_version" = some (.str "3.12.3") ∧
    (info env).field "flask_version" = some (.str "installed") ∧
    (info env).field "python_version" = (info env2).field "python_version" ∧
    (info env).field "flask_version" = (info env2).field "flask_version" :=
  ⟨rfl, rfl, rfl, rfl⟩

end App
